import Mathlib

/-!
# Tarteel Quran player — verification of the playback synchronization core

Shallow embedding of `src/app/page.js` (the `useQuranPlayer` hook, the
`quranApiService.getSurahData` provider call, and the audio reconciliation
effect).  Pure functions of the source become Lean functions; the React
state plus the `autoPlayOnLoadRef` ref become an explicit `PlayerState`;
in-flight content fetches become a list of pending `FetchRequest`s on a
`SystemState`, and the host event loop becomes a `step` function over an
`Event` type.
-/

namespace Tarteel

/-- `TOTAL_SURAHS` constant (page.js line 9). -/
def TOTAL_SURAHS : Nat := 114

/-- One raw ayah as delivered by one edition payload of the
alquran.cloud response (`json.data[k].ayahs[i]`). -/
structure RawAyah where
  number : Nat
  numberInSurah : Nat
  audio : String
  text : String
  deriving Repr, DecidableEq

/-- The nested `edition` object of an edition payload. -/
structure EditionInfo where
  identifier : String
  deriving Repr, DecidableEq

/-- One element of `json.data` in the surah editions response. -/
structure EditionPayload where
  edition : EditionInfo
  ayahs : List RawAyah
  deriving Repr, DecidableEq

/-- A combined ayah of the assembled content bundle
(`combinedAyahs`, page.js lines 71-75). -/
structure Ayah where
  number : Nat
  numberInSurah : Nat
  audio : String
  textArabic : String
  textEnglish : String
  deriving Repr, DecidableEq

/-- The content bundle returned by `getSurahData`
(`{ ...audioData, ayahs: combinedAyahs }`, page.js line 77). -/
structure SurahData where
  edition : EditionInfo
  ayahs : List Ayah
  deriving Repr, DecidableEq

/-- The `json.data` field of the provider response: an array of edition
payloads, some other (string) value, or null/absent. -/
inductive JsonData where
  | arr (editions : List EditionPayload)
  | str (s : String)
  | nullv
  deriving Repr, DecidableEq

/-- A provider HTTP response for the surah editions call, as observed by
`getSurahData` (page.js lines 47-59): transport status, `statusText`, the
`data` field of the error body when `res.ok` is false (none when the body
fails to parse as JSON), and the JSON envelope (`code`, `data`). -/
structure SurahApiResponse where
  ok : Bool
  statusText : String
  errorBodyData : Option String
  code : Nat
  data : JsonData
  deriving Repr, DecidableEq

/-- JavaScript `a || b` on an optional string `a` (falsy: absent or ""). -/
def orDefault (a : Option String) (b : String) : String :=
  match a with
  | some v => if v = "" then b else v
  | none => b

/-- Fallback Arabic text used when `textData.ayahs[i]?.text` is falsy
(page.js line 73). -/
def fallbackArabic : String := "بِسْمِ ٱللَّهِ ٱلرَّحْمَٰنِ ٱلرَّحِيمِ"

/-- Fallback translation used when `translationData.ayahs[i]?.text` is
falsy (page.js line 74). -/
def fallbackEnglish : String :=
  "In the name of Allah, the Entirely Merciful, the Especially Merciful."

/-- `ayahs[i]?.text || fallback` (page.js lines 73-74). -/
def textAt (ayahs : List RawAyah) (i : Nat) (fallback : String) : String :=
  match ayahs[i]? with
  | some a => if a.text = "" then fallback else a.text
  | none => fallback

/-- `combinedAyahs` (page.js lines 71-75): the audio edition's ayahs,
index-aligned with the text and translation editions, with falsy text
positions replaced by the fallback strings. -/
def combineAyahs (audioAyahs textAyahs transAyahs : List RawAyah) : List Ayah :=
  audioAyahs.mapIdx (fun i a =>
    { number := a.number
      numberInSurah := a.numberInSurah
      audio := a.audio
      textArabic := textAt textAyahs i fallbackArabic
      textEnglish := textAt transAyahs i fallbackEnglish })

/-- `quranApiService.getSurahData` (page.js lines 47-78), as a function of
the provider response.  Throwing becomes `Except.error`.  (When
`json.code !== 200` while `json.data` is an array, the JS `json.data || msg`
yields the array coerced to a string; only the fact that it errors matters
here, so that branch produces the default message.) -/
def getSurahData (editionId : String) (resp : SurahApiResponse) :
    Except String SurahData :=
  if resp.ok = false then
    .error ("Failed to fetch surah data: " ++
      orDefault resp.errorBodyData resp.statusText)
  else
    match resp.data with
    | .str s =>
        .error (orDefault (some s) "Invalid data structure received for surah.")
    | .nullv =>
        .error "Invalid data structure received for surah."
    | .arr editions =>
        if resp.code ≠ 200 then
          .error "Invalid data structure received for surah."
        else
          match editions.find? (fun d => d.edition.identifier = editionId),
                editions.find? (fun d => d.edition.identifier = "quran-uthmani"),
                editions.find? (fun d => d.edition.identifier = "en.sahih") with
          | some audioData, some textData, some translationData =>
              .ok { edition := audioData.edition
                    ayahs := combineAyahs audioData.ayahs textData.ayahs
                      translationData.ayahs }
          | _, _, _ =>
              .error "One or more required editions could not be found for this surah."

/-- The React state of `useQuranPlayer` (page.js lines 89-107) that the
synchronization core reads and writes, together with the
`autoPlayOnLoadRef` ref.  UI-only state (font sizes, volume, mute,
progress, cached lists) is carried elsewhere or omitted. -/
structure PlayerState where
  selectedSurahNum : Nat
  selectedEditionId : String
  surahData : Option SurahData
  currentAyahIndex : Nat
  isPlaying : Bool
  isLoading : Bool
  error : Option String
  continuousPlay : Bool
  autoPlayOnLoad : Bool
  deriving Repr, DecidableEq

/-- `handleNextAyah` (page.js lines 158-172).  JS `idx >= length - 1`
agrees with the ℕ subtraction reading also when `length = 0` (both sides
classify every index as "last"). -/
def handleNextAyah (p : PlayerState) : PlayerState :=
  match p.surahData with
  | none => p
  | some sd =>
    if p.currentAyahIndex ≥ sd.ayahs.length - 1 then
      if p.continuousPlay ∧ p.selectedSurahNum < TOTAL_SURAHS then
        { p with selectedSurahNum := p.selectedSurahNum + 1 }
      else
        { p with isPlaying := false }
    else
      { p with currentAyahIndex := p.currentAyahIndex + 1, autoPlayOnLoad := true }

/-- `handlePrevAyah` (page.js lines 174-182). -/
def handlePrevAyah (p : PlayerState) : PlayerState :=
  if p.currentAyahIndex > 0 then
    { p with currentAyahIndex := p.currentAyahIndex - 1, autoPlayOnLoad := true }
  else if p.selectedSurahNum > 1 then
    { p with selectedSurahNum := p.selectedSurahNum - 1 }
  else p

/-- `handleNextSurah` (page.js lines 184-188). -/
def handleNextSurah (p : PlayerState) : PlayerState :=
  if p.selectedSurahNum < TOTAL_SURAHS then
    { p with selectedSurahNum := p.selectedSurahNum + 1 }
  else p

/-- `handlePrevSurah` (page.js lines 190-194). -/
def handlePrevSurah (p : PlayerState) : PlayerState :=
  if p.selectedSurahNum > 1 then
    { p with selectedSurahNum := p.selectedSurahNum - 1 }
  else p

/-- `togglePlayPause` (page.js line 262). -/
def togglePlayPause (p : PlayerState) : PlayerState :=
  { p with isPlaying := !p.isPlaying }

/-- An in-flight `fetchSurahData` call (page.js lines 134-153): the
selection it was issued for and the `isPlaying` value its closure
captured when the effect ran. -/
structure FetchRequest where
  surahNum : Nat
  editionId : String
  isPlayingAtIssue : Bool
  deriving Repr, DecidableEq

/-- The synchronous prefix of the surah-change effect (page.js lines
131-138): the guard `if (!selectedSurahNum || !selectedEditionId) return`,
then `setIsLoading(true); setError(null)` and the issue of the fetch. -/
def issueFetch (p : PlayerState) : PlayerState × Option FetchRequest :=
  if p.selectedSurahNum = 0 ∨ p.selectedEditionId = "" then (p, none)
  else ({ p with isLoading := true, error := none },
        some { surahNum := p.selectedSurahNum
               editionId := p.selectedEditionId
               isPlayingAtIssue := p.isPlaying })

/-- Resolution of a successful fetch (page.js lines 138-143, 149-150):
`setSurahData(data); setCurrentAyahIndex(0)`, and
`autoPlayOnLoadRef.current = true` when the captured `isPlaying` was true;
`finally` clears `isLoading`.  The source applies this with no staleness
check against the current selection. -/
def resolveFetchSuccess (req : FetchRequest) (data : SurahData)
    (p : PlayerState) : PlayerState :=
  { p with surahData := some data
           currentAyahIndex := 0
           autoPlayOnLoad := req.isPlayingAtIssue || p.autoPlayOnLoad
           isLoading := false }

/-- Resolution of a failed fetch (page.js lines 144-150): `setError`,
`setSurahData(null)`, `setIsPlaying(false)`, `finally` clears
`isLoading`. -/
def resolveFetchFailure (msg : String) (p : PlayerState) : PlayerState :=
  { p with error := some msg
           surahData := none
           isPlaying := false
           isLoading := false }

/-- Resolution of a fetch given the provider response it received:
dispatch on `getSurahData` as the `try`/`catch` of `fetchSurahData` does. -/
def resolveFetchWith (req : FetchRequest) (resp : SurahApiResponse)
    (p : PlayerState) : PlayerState :=
  match getSurahData req.editionId resp with
  | .ok data => resolveFetchSuccess req data p
  | .error msg => resolveFetchFailure msg p

/-- The observable face of the `<audio>` element as the reconciliation
effect uses it (page.js lines 197-229): the loaded `src`, the
paused/playing flag, and counters of `load()` and `play()` invocations
issued by the controller (a reload is one `load()` call). -/
structure AudioElem where
  src : String
  isPaused : Bool
  loadCount : Nat
  playCount : Nat
  deriving Repr, DecidableEq

/-- The synchronous body of the audio reconciliation effect (page.js
lines 197-229), as a function of the state it reads — the content bundle,
`currentAyahIndex`, `isPlaying` — the `autoPlayOnLoadRef` flag and the
audio element.  Returns the updated element and flag.  `play()` is counted
when invoked; its asynchronous rejection handler is a separate event not
modelled here. -/
def reconcileAudio (surahData : Option SurahData) (currentAyahIndex : Nat)
    (isPlaying : Bool) (autoPlayOnLoad : Bool) (audio : AudioElem) :
    AudioElem × Bool :=
  match surahData with
  | none => (audio, autoPlayOnLoad)
  | some sd =>
    match sd.ayahs[currentAyahIndex]? with
    | none => (audio, autoPlayOnLoad)
    | some currentAyah =>
      let isNewSrc : Bool := audio.src ≠ currentAyah.audio
      let audio1 :=
        if isNewSrc then
          { audio with src := currentAyah.audio, loadCount := audio.loadCount + 1 }
        else audio
      if isPlaying then
        if isNewSrc then
          (audio1, true)
        else
          ({ audio1 with isPaused := false, playCount := audio1.playCount + 1 },
           autoPlayOnLoad)
      else
        ({ audio1 with isPaused := true }, autoPlayOnLoad)

/-- Result of delivering a `canplay` event: the new flag, the audio
element, and whether a playback start (`playAudio()`) was triggered. -/
structure CanPlayResult where
  autoPlayOnLoad : Bool
  audio : AudioElem
  started : Bool
  deriving Repr, DecidableEq

/-- `handleCanPlay` (page.js lines 231-236): on `canplay`, if the
pending-autoplay flag is set, invoke `playAudio()` and clear the flag. -/
def handleCanPlay (autoPlayOnLoad : Bool) (audio : AudioElem) : CanPlayResult :=
  if autoPlayOnLoad then
    { autoPlayOnLoad := false
      audio := { audio with isPaused := false, playCount := audio.playCount + 1 }
      started := true }
  else
    { autoPlayOnLoad := autoPlayOnLoad, audio := audio, started := false }

/-- The time-bearing face of the audio element for seeking. -/
structure MediaTime where
  currentTime : ℚ
  duration : ℚ
  deriving DecidableEq

/-- Modelled from the spec: the audio resource itself is the platform's
media element, not code of this repository; per the spec's seek contract
("out-of-range input is clamped, not rejected", §4.1) assigning
`currentTime` clamps the requested time into `[0, duration]`. -/
def MediaTime.setCurrentTime (a : MediaTime) (t : ℚ) : MediaTime :=
  { a with currentTime := max 0 (min t a.duration) }

/-- The `audioProgress` state (page.js line 103). -/
structure AudioProgress where
  currentTime : ℚ
  duration : ℚ
  deriving DecidableEq

/-- `handleSeek` (page.js lines 263-269): assign the parsed slider value
to `audio.currentTime` and copy the element's (clamped) `currentTime` back
into `audioProgress`. -/
def handleSeek (audio : MediaTime) (progress : AudioProgress) (value : ℚ) :
    MediaTime × AudioProgress :=
  let audio1 := audio.setCurrentTime value
  (audio1, { progress with currentTime := audio1.currentTime })

/-- The whole system: the hook's state plus the in-flight fetches of the
surah-change effect (the host keeps each awaited `fetchSurahData` alive
until its promise settles). -/
structure SystemState where
  player : PlayerState
  pending : List FetchRequest
  deriving Repr, DecidableEq

/-- Run a state-updating callback and then the surah-change effect: the
effect re-runs (issuing a fetch) exactly when one of its dependencies
`[selectedSurahNum, selectedEditionId]` changed (page.js line 154). -/
def applyPlayerOp (op : PlayerState → PlayerState) (s : SystemState) :
    SystemState :=
  let q := op s.player
  if q.selectedSurahNum = s.player.selectedSurahNum ∧
     q.selectedEditionId = s.player.selectedEditionId then
    { player := q, pending := s.pending }
  else
    { player := (issueFetch q).1
      pending := s.pending ++ (issueFetch q).2.toList }

/-- `setSelectedSurahNum` as invoked by the surah dropdown (page.js
line 610). -/
def selectSurah (n : Nat) (p : PlayerState) : PlayerState :=
  { p with selectedSurahNum := n }

/-- `setSelectedEditionId` as invoked by the reciter dropdown (page.js
line 611). -/
def selectEdition (id : String) (p : PlayerState) : PlayerState :=
  { p with selectedEditionId := id }

/-- `setContinuousPlay(p => !p)` (page.js line 570). -/
def toggleContinuousPlay (p : PlayerState) : PlayerState :=
  { p with continuousPlay := !p.continuousPlay }

/-- The serialized triggers of the event loop that touch the navigation
core: user operations, and settlement of an in-flight fetch (success with
a parsed bundle, or failure with a message). -/
inductive Event where
  | nextAyah
  | prevAyah
  | nextSurah
  | prevSurah
  | togglePlay
  | toggleContinuous
  | selectSurahNum (n : Nat)
  | selectEditionId (id : String)
  | fetchOk (req : FetchRequest) (data : SurahData)
  | fetchErr (req : FetchRequest) (msg : String)
  deriving Repr, DecidableEq

/-- One reaction of the event loop.  A fetch settlement applies its
resolution unconditionally — the source has no staleness check — and
removes the request from the in-flight list; settlement of a request that
is not in flight is a no-op. -/
def step (s : SystemState) : Event → SystemState
  | .nextAyah => applyPlayerOp handleNextAyah s
  | .prevAyah => applyPlayerOp handlePrevAyah s
  | .nextSurah => applyPlayerOp handleNextSurah s
  | .prevSurah => applyPlayerOp handlePrevSurah s
  | .togglePlay => applyPlayerOp togglePlayPause s
  | .toggleContinuous => applyPlayerOp toggleContinuousPlay s
  | .selectSurahNum n => applyPlayerOp (selectSurah n) s
  | .selectEditionId id => applyPlayerOp (selectEdition id) s
  | .fetchOk req data =>
      if req ∈ s.pending then
        { player := resolveFetchSuccess req data s.player
          pending := s.pending.erase req }
      else s
  | .fetchErr req msg =>
      if req ∈ s.pending then
        { player := resolveFetchFailure msg s.player
          pending := s.pending.erase req }
      else s

/-- The initial hook state (page.js lines 89-107). -/
def initPlayer : PlayerState :=
  { selectedSurahNum := 1
    selectedEditionId := "ar.alafasy"
    surahData := none
    currentAyahIndex := 0
    isPlaying := false
    isLoading := true
    error := none
    continuousPlay := true
    autoPlayOnLoad := false }

/-- The system right after mount: the surah-change effect has run once
for the initial selection, so one fetch for (1, ar.alafasy) is in
flight. -/
def initSystem : SystemState :=
  { player := (issueFetch initPlayer).1
    pending := (issueFetch initPlayer).2.toList }

/-- Environment discipline on a trigger: a successful content fetch
delivers a non-empty unit sequence (content-bundle invariant of the
provider contract, spec §3). -/
def goodEvent : Event → Prop
  | .fetchOk _ data => data.ayahs ≠ []
  | _ => True

/-- States reachable from mount by any serialized sequence of triggers
whose successful fetches satisfy the provider contract. -/
inductive Reachable : SystemState → Prop where
  | init : Reachable initSystem
  | step (s : SystemState) (e : Event) :
      Reachable s → goodEvent e → Reachable (step s e)

/-- The cursor invariant: whenever a content bundle is loaded, it is
non-empty and `currentAyahIndex` indexes one of its units. -/
def cursorInRange (p : PlayerState) : Prop :=
  ∀ sd, p.surahData = some sd →
    0 < sd.ayahs.length ∧ p.currentAyahIndex < sd.ayahs.length

lemma cursorInRange_issueFetch (p : PlayerState) (h : cursorInRange p) :
    cursorInRange (issueFetch p).1 := by
  unfold issueFetch
  split
  · exact h
  · intro sd hsd
    exact h sd hsd

lemma cursorInRange_applyPlayerOp (op : PlayerState → PlayerState)
    (hop : ∀ p, cursorInRange p → cursorInRange (op p)) (s : SystemState)
    (h : cursorInRange s.player) : cursorInRange (applyPlayerOp op s).player := by
  simp only [applyPlayerOp]
  split
  · exact hop _ h
  · exact cursorInRange_issueFetch _ (hop _ h)

lemma cursorInRange_handleNextAyah (p : PlayerState) (h : cursorInRange p) :
    cursorInRange (handleNextAyah p) := by
  unfold handleNextAyah
  split
  · exact h
  · rename_i sd0 hp
    split
    · split
      · intro sd hsd
        exact h sd hsd
      · intro sd hsd
        exact h sd hsd
    · rename_i hnotlast
      intro sd hsd
      have hsd' : p.surahData = some sd := hsd
      rw [hp] at hsd'
      obtain rfl : sd0 = sd := by injection hsd'
      have hlt : p.currentAyahIndex < sd0.ayahs.length - 1 := by omega
      exact ⟨by omega, by show p.currentAyahIndex + 1 < sd0.ayahs.length; omega⟩

lemma cursorInRange_handlePrevAyah (p : PlayerState) (h : cursorInRange p) :
    cursorInRange (handlePrevAyah p) := by
  unfold handlePrevAyah
  split
  · intro sd hsd
    obtain ⟨h1, h2⟩ := h sd hsd
    exact ⟨h1, by show p.currentAyahIndex - 1 < sd.ayahs.length; omega⟩
  · split
    · intro sd hsd
      exact h sd hsd
    · exact h

lemma cursorInRange_const_cursor (op : PlayerState → PlayerState)
    (hsd : ∀ p, (op p).surahData = p.surahData)
    (hidx : ∀ p, (op p).currentAyahIndex = p.currentAyahIndex)
    (p : PlayerState) (h : cursorInRange p) : cursorInRange (op p) := by
  intro sd hs
  rw [hsd] at hs
  rw [hidx]
  exact h sd hs

lemma cursorInRange_handleNextSurah (p : PlayerState) (h : cursorInRange p) :
    cursorInRange (handleNextSurah p) := by
  refine cursorInRange_const_cursor _ (fun q => ?_) (fun q => ?_) p h <;>
    (unfold handleNextSurah; split <;> rfl)

lemma cursorInRange_handlePrevSurah (p : PlayerState) (h : cursorInRange p) :
    cursorInRange (handlePrevSurah p) := by
  refine cursorInRange_const_cursor _ (fun q => ?_) (fun q => ?_) p h <;>
    (unfold handlePrevSurah; split <;> rfl)

lemma cursorInRange_step (s : SystemState) (e : Event) (hg : goodEvent e)
    (h : cursorInRange s.player) : cursorInRange (step s e).player := by
  cases e with
  | nextAyah => exact cursorInRange_applyPlayerOp _ cursorInRange_handleNextAyah s h
  | prevAyah => exact cursorInRange_applyPlayerOp _ cursorInRange_handlePrevAyah s h
  | nextSurah => exact cursorInRange_applyPlayerOp _ cursorInRange_handleNextSurah s h
  | prevSurah => exact cursorInRange_applyPlayerOp _ cursorInRange_handlePrevSurah s h
  | togglePlay =>
      exact cursorInRange_applyPlayerOp togglePlayPause
        (cursorInRange_const_cursor togglePlayPause (fun q => rfl) (fun q => rfl)) s h
  | toggleContinuous =>
      exact cursorInRange_applyPlayerOp toggleContinuousPlay
        (cursorInRange_const_cursor toggleContinuousPlay (fun q => rfl) (fun q => rfl)) s h
  | selectSurahNum n =>
      exact cursorInRange_applyPlayerOp (selectSurah n)
        (cursorInRange_const_cursor (selectSurah n) (fun q => rfl) (fun q => rfl)) s h
  | selectEditionId id =>
      exact cursorInRange_applyPlayerOp (selectEdition id)
        (cursorInRange_const_cursor (selectEdition id) (fun q => rfl) (fun q => rfl)) s h
  | fetchOk req data =>
      simp only [step]
      split
      · intro sd hsd
        have hsd' : some data = some sd := hsd
        obtain rfl : data = sd := by injection hsd'
        have hne : data.ayahs ≠ [] := hg
        have hlen : 0 < data.ayahs.length := List.length_pos.mpr hne
        exact ⟨hlen, hlen⟩
      · exact h
  | fetchErr req msg =>
      simp only [step]
      split
      · intro sd hsd
        have hsd' : (none : Option SurahData) = some sd := hsd
        cases hsd'
      · exact h

lemma cursorInRange_init : cursorInRange initSystem.player := by
  intro sd hsd
  have hsd' : (none : Option SurahData) = some sd := hsd
  cases hsd'

lemma cursorInRange_reachable (s : SystemState) (h : Reachable s) :
    cursorInRange s.player := by
  induction h with
  | init => exact cursorInRange_init
  | step s e _ hg ih => exact cursorInRange_step s e hg ih

/-- C1: In every reachable state with a loaded content bundle — after any
sequence of advance / retreat / next-chapter / previous-chapter
operations, selection changes, play toggles, and completed content
fetches — the bundle is non-empty and `currentAyahIndex` lies in
`[0, surahData.ayahs.length - 1]`. -/
theorem c1_cursor_in_range (s : SystemState) (h : Reachable s)
    (sd : SurahData) (hsd : s.player.surahData = some sd) :
    0 < sd.ayahs.length ∧
      s.player.currentAyahIndex ≤ sd.ayahs.length - 1 := by
  obtain ⟨h1, h2⟩ := cursorInRange_reachable s h sd hsd
  exact ⟨h1, by omega⟩

/-- A tiny concrete ayah for concrete runs. -/
def sampleAyah1 : Ayah :=
  { number := 1, numberInSurah := 1, audio := "https://cdn.test/1.mp3",
    textArabic := "آية", textEnglish := "verse one" }

/-- A second concrete ayah with a different audio locator. -/
def sampleAyah2 : Ayah :=
  { number := 2, numberInSurah := 2, audio := "https://cdn.test/2.mp3",
    textArabic := "آية", textEnglish := "verse two" }

/-- A two-unit concrete content bundle. -/
def sampleBundle1 : SurahData :=
  { edition := { identifier := "ar.alafasy" }, ayahs := [sampleAyah1, sampleAyah2] }

/-- A one-unit concrete content bundle, distinct from `sampleBundle1`. -/
def sampleBundle2 : SurahData :=
  { edition := { identifier := "ar.alafasy" }, ayahs := [sampleAyah2] }

/-- The fetch issued on mount for the initial selection (1, ar.alafasy). -/
def initReq : FetchRequest :=
  { surahNum := 1, editionId := "ar.alafasy", isPlayingAtIssue := false }

theorem c1_cursor_in_range_witness :
    0 < sampleBundle1.ayahs.length ∧
      (step initSystem (.fetchOk initReq sampleBundle1)).player.currentAyahIndex ≤
        sampleBundle1.ayahs.length - 1 :=
  c1_cursor_in_range _
    (Reachable.step initSystem (.fetchOk initReq sampleBundle1) Reachable.init
      (by show sampleBundle1.ayahs ≠ []; decide))
    sampleBundle1 (by decide)

/-- The fetch issued when the user selects surah 2 while not playing. -/
def surah2Req : FetchRequest :=
  { surahNum := 2, editionId := "ar.alafasy", isPlayingAtIssue := false }

/-- C2 fails on the code: `fetchSurahData` commits its result with no
staleness check.  Concrete run from mount: the user selects surah 2 (its
fetch joins the in-flight mount fetch for surah 1); the surah-2 fetch
resolves and commits its bundle; then the mount fetch for surah 1
resolves late — and overwrites `surahData` with the superseded bundle
even though the selection is still surah 2, instead of discarding it. -/
theorem c2_stale_fetch_applied :
    (step (step initSystem (.selectSurahNum 2))
        (.fetchOk surah2Req sampleBundle2)).player.surahData = some sampleBundle2 ∧
    (step (step (step initSystem (.selectSurahNum 2))
        (.fetchOk surah2Req sampleBundle2))
        (.fetchOk initReq sampleBundle1)).player.selectedSurahNum = 2 ∧
    (step (step (step initSystem (.selectSurahNum 2))
        (.fetchOk surah2Req sampleBundle2))
        (.fetchOk initReq sampleBundle1)).player.surahData = some sampleBundle1 ∧
    sampleBundle1 ≠ sampleBundle2 := by decide

/-- C3: advance at the last unit of chapter k (k < 114) with continuity
mode on requests chapter k+1, capturing the current play intent; when the
resulting fetch commits, the cursor is (k+1, unit 0) on the new bundle,
and if play intent was true before the transition the pending-autoplay
flag is set so playback resumes. -/
theorem c3_advance_crosses_chapter (s : SystemState) (sd : SurahData) (k : Nat)
    (hsd : s.player.surahData = some sd)
    (hlast : s.player.currentAyahIndex ≥ sd.ayahs.length - 1)
    (hcont : s.player.continuousPlay = true)
    (hk : s.player.selectedSurahNum = k)
    (hklt : k < TOTAL_SURAHS)
    (hed : s.player.selectedEditionId ≠ "") :
    (step s .nextAyah).player.selectedSurahNum = k + 1 ∧
    ∃ req : FetchRequest,
      (step s .nextAyah).pending = s.pending ++ [req] ∧
      req.surahNum = k + 1 ∧
      req.isPlayingAtIssue = s.player.isPlaying ∧
      ∀ data : SurahData,
        (step (step s .nextAyah) (.fetchOk req data)).player.selectedSurahNum = k + 1 ∧
        (step (step s .nextAyah) (.fetchOk req data)).player.currentAyahIndex = 0 ∧
        (step (step s .nextAyah) (.fetchOk req data)).player.surahData = some data ∧
        (s.player.isPlaying = true →
          (step (step s .nextAyah) (.fetchOk req data)).player.autoPlayOnLoad = true) := by
  have hq : handleNextAyah s.player =
      { s.player with selectedSurahNum := s.player.selectedSurahNum + 1 } := by
    unfold handleNextAyah
    rw [hsd]
    dsimp only
    rw [if_pos hlast, if_pos ⟨hcont, by rw [hk]; exact hklt⟩, hsd]
  have hne : ¬((handleNextAyah s.player).selectedSurahNum = s.player.selectedSurahNum ∧
      (handleNextAyah s.player).selectedEditionId = s.player.selectedEditionId) := by
    rw [hq]
    simp
  have hs1 : step s .nextAyah =
      { player := (issueFetch (handleNextAyah s.player)).1,
        pending := s.pending ++ (issueFetch (handleNextAyah s.player)).2.toList } := by
    simp only [step, applyPlayerOp]
    rw [if_neg hne]
  have hif : issueFetch (handleNextAyah s.player) =
      ({ s.player with
          selectedSurahNum := s.player.selectedSurahNum + 1,
          isLoading := true,
          error := none },
       some (FetchRequest.mk (s.player.selectedSurahNum + 1)
         s.player.selectedEditionId s.player.isPlaying)) := by
    rw [hq]
    unfold issueFetch
    rw [if_neg (by simp [hed])]
  have hpend : (step s .nextAyah).pending = s.pending ++
      [FetchRequest.mk (s.player.selectedSurahNum + 1)
        s.player.selectedEditionId s.player.isPlaying] := by
    rw [hs1, hif]
    rfl
  have hsel1 : (step s .nextAyah).player.selectedSurahNum = k + 1 := by
    rw [hs1, hif, hk]
  refine ⟨hsel1,
    FetchRequest.mk (s.player.selectedSurahNum + 1)
      s.player.selectedEditionId s.player.isPlaying,
    hpend, by rw [hk], rfl, fun data => ?_⟩
  have hmem : FetchRequest.mk (s.player.selectedSurahNum + 1)
      s.player.selectedEditionId s.player.isPlaying ∈ (step s .nextAyah).pending := by
    rw [hpend]
    exact List.mem_append_right _ (List.mem_singleton_self _)
  have hs2 : step (step s .nextAyah)
      (.fetchOk (FetchRequest.mk (s.player.selectedSurahNum + 1)
        s.player.selectedEditionId s.player.isPlaying) data) =
      { player := resolveFetchSuccess
          (FetchRequest.mk (s.player.selectedSurahNum + 1)
            s.player.selectedEditionId s.player.isPlaying) data
          (step s .nextAyah).player,
        pending := (step s .nextAyah).pending.erase
          (FetchRequest.mk (s.player.selectedSurahNum + 1)
            s.player.selectedEditionId s.player.isPlaying) } := by
    have hmem2 : FetchRequest.mk (s.player.selectedSurahNum + 1)
        s.player.selectedEditionId s.player.isPlaying ∈
        (applyPlayerOp handleNextAyah s).pending := hmem
    simp only [step]
    rw [if_pos hmem2]
  rw [hs2]
  refine ⟨?_, rfl, rfl, fun hp => ?_⟩
  · show (step s .nextAyah).player.selectedSurahNum = k + 1
    exact hsel1
  · simp [resolveFetchSuccess, hp]

/-- A concrete state: playing the last (only) unit of chapter 1's
one-unit bundle, continuity on, nothing in flight. -/
def playingEndS : SystemState :=
  { player := { selectedSurahNum := 1, selectedEditionId := "ar.alafasy",
                surahData := some sampleBundle2, currentAyahIndex := 0,
                isPlaying := true, isLoading := false, error := none,
                continuousPlay := true, autoPlayOnLoad := false },
    pending := [] }

theorem c3_advance_crosses_chapter_witness :
    (step playingEndS .nextAyah).player.selectedSurahNum = 1 + 1 ∧
    ∃ req : FetchRequest,
      (step playingEndS .nextAyah).pending = playingEndS.pending ++ [req] ∧
      req.surahNum = 1 + 1 ∧
      req.isPlayingAtIssue = playingEndS.player.isPlaying ∧
      ∀ data : SurahData,
        (step (step playingEndS .nextAyah) (.fetchOk req data)).player.selectedSurahNum = 1 + 1 ∧
        (step (step playingEndS .nextAyah) (.fetchOk req data)).player.currentAyahIndex = 0 ∧
        (step (step playingEndS .nextAyah) (.fetchOk req data)).player.surahData = some data ∧
        (playingEndS.player.isPlaying = true →
          (step (step playingEndS .nextAyah) (.fetchOk req data)).player.autoPlayOnLoad = true) :=
  c3_advance_crosses_chapter playingEndS sampleBundle2 1 rfl (by decide) rfl rfl
    (by decide) (by decide)

/-- A concrete state: playing the last unit of chapter 114 with
continuity off. -/
def endCorpusS : SystemState :=
  { player := { selectedSurahNum := 114, selectedEditionId := "ar.alafasy",
                surahData := some sampleBundle2, currentAyahIndex := 0,
                isPlaying := true, isLoading := false, error := none,
                continuousPlay := false, autoPlayOnLoad := false },
    pending := [] }

/-- C4: advance at the last unit when no chapter transition is possible —
continuity mode off, or already at chapter 114 — sets play intent to
false and leaves everything else unchanged: selection, cursor, bundle,
flag and in-flight fetches are untouched and no fetch is requested. -/
theorem c4_advance_stops_at_end (s : SystemState) (sd : SurahData)
    (hsd : s.player.surahData = some sd)
    (hlast : s.player.currentAyahIndex ≥ sd.ayahs.length - 1)
    (hstop : ¬(s.player.continuousPlay = true ∧
      s.player.selectedSurahNum < TOTAL_SURAHS)) :
    step s .nextAyah =
      { player := { s.player with isPlaying := false }, pending := s.pending } := by
  have hq : handleNextAyah s.player = { s.player with isPlaying := false } := by
    unfold handleNextAyah
    rw [hsd]
    dsimp only
    rw [if_pos hlast, if_neg hstop, hsd]
  simp only [step, applyPlayerOp, hq]
  simp

theorem c4_advance_stops_at_end_witness :
    step endCorpusS .nextAyah =
      { player := { endCorpusS.player with isPlaying := false },
        pending := endCorpusS.pending } :=
  c4_advance_stops_at_end endCorpusS sampleBundle2 rfl (by decide) (by decide)

/-- A concrete state: resting at unit 0 of chapter 2, nothing in
flight. -/
def chapter2StartS : SystemState :=
  { player := { selectedSurahNum := 2, selectedEditionId := "ar.alafasy",
                surahData := some sampleBundle1, currentAyahIndex := 0,
                isPlaying := false, isLoading := false, error := none,
                continuousPlay := true, autoPlayOnLoad := false },
    pending := [] }

/-- C5: retreat at unit 0 of chapter k > 1 requests chapter k-1 and, when
the resulting fetch commits, the cursor is (k-1, unit 0) — the first unit
of the previous chapter, not its last; retreat at unit 0 of chapter 1
changes nothing at all. -/
theorem c5_retreat_at_chapter_start (s : SystemState) (k : Nat)
    (hidx : s.player.currentAyahIndex = 0)
    (hk : s.player.selectedSurahNum = k)
    (hed : s.player.selectedEditionId ≠ "") :
    (1 < k →
      (step s .prevAyah).player.selectedSurahNum = k - 1 ∧
      ∃ req : FetchRequest,
        (step s .prevAyah).pending = s.pending ++ [req] ∧
        req.surahNum = k - 1 ∧
        ∀ data : SurahData,
          (step (step s .prevAyah) (.fetchOk req data)).player.selectedSurahNum = k - 1 ∧
          (step (step s .prevAyah) (.fetchOk req data)).player.currentAyahIndex = 0 ∧
          (step (step s .prevAyah) (.fetchOk req data)).player.surahData = some data) ∧
    (k = 1 → step s .prevAyah = s) := by
  constructor
  · intro hk1
    have hq : handlePrevAyah s.player =
        { s.player with selectedSurahNum := s.player.selectedSurahNum - 1 } := by
      unfold handlePrevAyah
      rw [if_neg (by omega), if_pos (by omega)]
    have hne : ¬((handlePrevAyah s.player).selectedSurahNum = s.player.selectedSurahNum ∧
        (handlePrevAyah s.player).selectedEditionId = s.player.selectedEditionId) := by
      rw [hq]
      intro hc
      have hcc : s.player.selectedSurahNum - 1 = s.player.selectedSurahNum := hc.1
      omega
    have hs1 : step s .prevAyah =
        { player := (issueFetch (handlePrevAyah s.player)).1,
          pending := s.pending ++ (issueFetch (handlePrevAyah s.player)).2.toList } := by
      simp only [step, applyPlayerOp]
      rw [if_neg hne]
    have hif : issueFetch (handlePrevAyah s.player) =
        ({ s.player with
            selectedSurahNum := s.player.selectedSurahNum - 1,
            isLoading := true,
            error := none },
         some (FetchRequest.mk (s.player.selectedSurahNum - 1)
           s.player.selectedEditionId s.player.isPlaying)) := by
      rw [hq]
      unfold issueFetch
      rw [if_neg (by simp only [not_or]; exact ⟨by omega, hed⟩)]
    have hpend : (step s .prevAyah).pending = s.pending ++
        [FetchRequest.mk (s.player.selectedSurahNum - 1)
          s.player.selectedEditionId s.player.isPlaying] := by
      rw [hs1, hif]
      rfl
    have hsel1 : (step s .prevAyah).player.selectedSurahNum = k - 1 := by
      rw [hs1, hif, hk]
    refine ⟨hsel1,
      FetchRequest.mk (s.player.selectedSurahNum - 1)
        s.player.selectedEditionId s.player.isPlaying,
      hpend, by rw [hk], fun data => ?_⟩
    have hmem : FetchRequest.mk (s.player.selectedSurahNum - 1)
        s.player.selectedEditionId s.player.isPlaying ∈ (step s .prevAyah).pending := by
      rw [hpend]
      exact List.mem_append_right _ (List.mem_singleton_self _)
    have hs2 : step (step s .prevAyah)
        (.fetchOk (FetchRequest.mk (s.player.selectedSurahNum - 1)
          s.player.selectedEditionId s.player.isPlaying) data) =
        { player := resolveFetchSuccess
            (FetchRequest.mk (s.player.selectedSurahNum - 1)
              s.player.selectedEditionId s.player.isPlaying) data
            (step s .prevAyah).player,
          pending := (step s .prevAyah).pending.erase
            (FetchRequest.mk (s.player.selectedSurahNum - 1)
              s.player.selectedEditionId s.player.isPlaying) } := by
      have hmem2 : FetchRequest.mk (s.player.selectedSurahNum - 1)
          s.player.selectedEditionId s.player.isPlaying ∈
          (applyPlayerOp handlePrevAyah s).pending := hmem
      simp only [step]
      rw [if_pos hmem2]
    rw [hs2]
    exact ⟨by show (step s .prevAyah).player.selectedSurahNum = k - 1; exact hsel1,
      rfl, rfl⟩
  · intro hk1
    have hq : handlePrevAyah s.player = s.player := by
      unfold handlePrevAyah
      rw [if_neg (by omega), if_neg (by omega)]
    simp only [step, applyPlayerOp, hq]
    simp

theorem c5_retreat_at_chapter_start_witness :
    (1 < 2 →
      (step chapter2StartS .prevAyah).player.selectedSurahNum = 2 - 1 ∧
      ∃ req : FetchRequest,
        (step chapter2StartS .prevAyah).pending = chapter2StartS.pending ++ [req] ∧
        req.surahNum = 2 - 1 ∧
        ∀ data : SurahData,
          (step (step chapter2StartS .prevAyah)
            (.fetchOk req data)).player.selectedSurahNum = 2 - 1 ∧
          (step (step chapter2StartS .prevAyah)
            (.fetchOk req data)).player.currentAyahIndex = 0 ∧
          (step (step chapter2StartS .prevAyah)
            (.fetchOk req data)).player.surahData = some data) ∧
    (2 = 1 → step chapter2StartS .prevAyah = chapter2StartS) :=
  c5_retreat_at_chapter_start chapter2StartS 2 rfl rfl (by decide)

/-- A concrete audio element holding the first sample source. -/
def sampleAudio : AudioElem :=
  { src := "https://cdn.test/1.mp3", isPaused := true, loadCount := 1, playCount := 0 }

/-- C6: the pending-autoplay flag is consumed at most once per source
change: the first canplay event that finds the flag set starts playback
and clears the flag, and a second canplay event on the same source then
starts nothing and leaves the element untouched. -/
theorem c6_autoplay_consumed_once (flag : Bool) (audio : AudioElem)
    (h : flag = true) :
    (handleCanPlay flag audio).started = true ∧
    (handleCanPlay flag audio).autoPlayOnLoad = false ∧
    (handleCanPlay (handleCanPlay flag audio).autoPlayOnLoad
      (handleCanPlay flag audio).audio).started = false ∧
    (handleCanPlay (handleCanPlay flag audio).autoPlayOnLoad
      (handleCanPlay flag audio).audio).audio = (handleCanPlay flag audio).audio := by
  subst h
  unfold handleCanPlay
  simp

theorem c6_autoplay_consumed_once_witness :
    (handleCanPlay true sampleAudio).started = true ∧
    (handleCanPlay true sampleAudio).autoPlayOnLoad = false ∧
    (handleCanPlay (handleCanPlay true sampleAudio).autoPlayOnLoad
      (handleCanPlay true sampleAudio).audio).started = false ∧
    (handleCanPlay (handleCanPlay true sampleAudio).autoPlayOnLoad
      (handleCanPlay true sampleAudio).audio).audio = (handleCanPlay true sampleAudio).audio :=
  c6_autoplay_consumed_once true sampleAudio rfl

/-- C7 fails on the code: `handleNextAyah` (page.js line 170) runs
`autoPlayOnLoadRef.current = true` on every same-chapter advance with no
regard to `isPlaying`.  Concrete run: paused at unit 0 of a two-unit
bundle, advance leaves play intent false yet sets the pending-autoplay
flag. -/
theorem c7_flag_set_while_paused :
    chapter2StartS.player.isPlaying = false ∧
    chapter2StartS.player.autoPlayOnLoad = false ∧
    (step chapter2StartS .nextAyah).player.isPlaying = false ∧
    (step chapter2StartS .nextAyah).player.autoPlayOnLoad = true := by decide

lemma reconcileAudio_flag_of_not_playing (surahData : Option SurahData)
    (idx : Nat) (flag : Bool) (audio : AudioElem) :
    (reconcileAudio surahData idx false flag audio).2 = flag := by
  unfold reconcileAudio
  split
  · rfl
  · split
    · rfl
    · simp

/-- C7 amended: the reconciliation effect sets the pending-autoplay flag
only while play intent is true, and a fetch commit sets it only when the
play intent captured at fetch issue was true; but the same-chapter
advance and retreat handlers set it unconditionally — even while play
intent is false. -/
theorem c7_flag_setting_sites (surahData : Option SurahData) (idx : Nat)
    (isPlaying flag : Bool) (audio : AudioElem) (req : FetchRequest)
    (data : SurahData) (p : PlayerState) :
    (flag = false →
      (reconcileAudio surahData idx isPlaying flag audio).2 = true →
      isPlaying = true) ∧
    (p.autoPlayOnLoad = false →
      (resolveFetchSuccess req data p).autoPlayOnLoad = true →
      req.isPlayingAtIssue = true) ∧
    (∀ sd, p.surahData = some sd → p.currentAyahIndex < sd.ayahs.length - 1 →
      (handleNextAyah p).autoPlayOnLoad = true) ∧
    (0 < p.currentAyahIndex → (handlePrevAyah p).autoPlayOnLoad = true) := by
  refine ⟨?_, ?_, ?_, ?_⟩
  · intro hf hout
    cases hp : isPlaying
    · rw [hp] at hout
      rw [reconcileAudio_flag_of_not_playing] at hout
      simp [hf] at hout
    · rfl
  · intro h0 hout
    simp only [resolveFetchSuccess, h0, Bool.or_false] at hout
    exact hout
  · intro sd hsd hlt
    unfold handleNextAyah
    rw [hsd]
    dsimp only
    rw [if_neg (by omega)]
  · intro h0
    unfold handlePrevAyah
    rw [if_pos h0]

theorem c7_flag_setting_sites_witness :
    (handleNextAyah chapter2StartS.player).autoPlayOnLoad = true :=
  (c7_flag_setting_sites none 0 false false sampleAudio initReq sampleBundle1
    chapter2StartS.player).2.2.1 sampleBundle1 rfl (by decide)

/-- C8: the seek operation clamps the requested target into
`[0, duration]` rather than rejecting it; in particular a request beyond
the duration lands exactly at the duration, and the observable progress
state is synchronized to the clamped position. -/
theorem c8_seek_clamps (audio : MediaTime) (progress : AudioProgress) (v : ℚ)
    (hdur : 0 ≤ audio.duration) :
    0 ≤ (handleSeek audio progress v).1.currentTime ∧
    (handleSeek audio progress v).1.currentTime ≤ audio.duration ∧
    (audio.duration < v →
      (handleSeek audio progress v).1.currentTime = audio.duration) ∧
    (handleSeek audio progress v).2.currentTime =
      (handleSeek audio progress v).1.currentTime := by
  simp only [handleSeek, MediaTime.setCurrentTime]
  refine ⟨le_max_left 0 _, max_le hdur (min_le_right v audio.duration),
    fun hv => ?_, trivial⟩
  rw [min_eq_right hv.le, max_eq_right hdur]

theorem c8_seek_clamps_witness :
    0 ≤ (handleSeek ⟨5, 10⟩ ⟨5, 10⟩ 99).1.currentTime ∧
    (handleSeek ⟨5, 10⟩ ⟨5, 10⟩ 99).1.currentTime ≤ (⟨5, 10⟩ : MediaTime).duration ∧
    ((⟨5, 10⟩ : MediaTime).duration < 99 →
      (handleSeek ⟨5, 10⟩ ⟨5, 10⟩ 99).1.currentTime = (⟨5, 10⟩ : MediaTime).duration) ∧
    (handleSeek ⟨5, 10⟩ ⟨5, 10⟩ 99).2.currentTime =
      (handleSeek ⟨5, 10⟩ ⟨5, 10⟩ 99).1.currentTime :=
  c8_seek_clamps ⟨5, 10⟩ ⟨5, 10⟩ 99 (by norm_num)

lemma reconcileAudio_src (sd : SurahData) (idx : Nat) (isPlaying flag : Bool)
    (audio : AudioElem) (ayah : Ayah) (hget : sd.ayahs[idx]? = some ayah) :
    (reconcileAudio (some sd) idx isPlaying flag audio).1.src = ayah.audio := by
  unfold reconcileAudio
  dsimp only
  rw [hget]
  by_cases h : audio.src = ayah.audio <;> cases isPlaying <;> simp [h]

lemma reconcileAudio_no_reload (sd : SurahData) (idx : Nat)
    (isPlaying flag : Bool) (audio : AudioElem) (ayah : Ayah)
    (hget : sd.ayahs[idx]? = some ayah) (hsrc : audio.src = ayah.audio) :
    (reconcileAudio (some sd) idx isPlaying flag audio).1.src = audio.src ∧
    (reconcileAudio (some sd) idx isPlaying flag audio).1.loadCount =
      audio.loadCount := by
  unfold reconcileAudio
  dsimp only
  rw [hget]
  cases isPlaying <;> simp [hsrc]

/-- C9: source assignment is idempotent: when the current unit's audio
locator already equals the element's loaded src, reconciliation neither
reassigns the source nor issues a `load()`; and whatever the starting
src, a second reconciliation pass for the same unit never issues another
`load()`. -/
theorem c9_source_assignment_idempotent (sd : SurahData) (idx : Nat)
    (isPlaying flag : Bool) (audio : AudioElem) (ayah : Ayah)
    (hget : sd.ayahs[idx]? = some ayah) :
    (audio.src = ayah.audio →
      (reconcileAudio (some sd) idx isPlaying flag audio).1.src = audio.src ∧
      (reconcileAudio (some sd) idx isPlaying flag audio).1.loadCount =
        audio.loadCount) ∧
    ∀ isPlaying2 flag2 : Bool,
      (reconcileAudio (some sd) idx isPlaying2 flag2
        (reconcileAudio (some sd) idx isPlaying flag audio).1).1.loadCount =
      (reconcileAudio (some sd) idx isPlaying flag audio).1.loadCount := by
  refine ⟨fun hsrc => reconcileAudio_no_reload sd idx isPlaying flag audio ayah
    hget hsrc, fun isPlaying2 flag2 => ?_⟩
  exact (reconcileAudio_no_reload sd idx isPlaying2 flag2 _ ayah hget
    (reconcileAudio_src sd idx isPlaying flag audio ayah hget)).2

theorem c9_source_assignment_idempotent_witness :
    (sampleAudio.src = sampleAyah1.audio →
      (reconcileAudio (some sampleBundle1) 0 true false sampleAudio).1.src =
        sampleAudio.src ∧
      (reconcileAudio (some sampleBundle1) 0 true false sampleAudio).1.loadCount =
        sampleAudio.loadCount) ∧
    ∀ isPlaying2 flag2 : Bool,
      (reconcileAudio (some sampleBundle1) 0 isPlaying2 flag2
        (reconcileAudio (some sampleBundle1) 0 true false sampleAudio).1).1.loadCount =
      (reconcileAudio (some sampleBundle1) 0 true false sampleAudio).1.loadCount :=
  c9_source_assignment_idempotent sampleBundle1 0 true false sampleAudio
    sampleAyah1 (by decide)

/-- C10: when a surah content fetch fails — the transport call not ok, a
malformed envelope, or missing editions — the resolution surfaces the
thrown message as the observable error state, stops playback, and
discards the prior content bundle. -/
theorem c10_fetch_failure_clears_state (req : FetchRequest)
    (resp : SurahApiResponse) (msg : String) (p : PlayerState)
    (h : getSurahData req.editionId resp = .error msg) :
    (resolveFetchWith req resp p).error = some msg ∧
    (resolveFetchWith req resp p).isPlaying = false ∧
    (resolveFetchWith req resp p).surahData = none := by
  unfold resolveFetchWith
  rw [h]
  exact ⟨rfl, rfl, rfl⟩

/-- A concrete transport failure: HTTP 500 whose body fails to parse. -/
def failedResp : SurahApiResponse :=
  { ok := false, statusText := "Internal Server Error", errorBodyData := none,
    code := 500, data := .nullv }

theorem c10_fetch_failure_clears_state_witness :
    (resolveFetchWith initReq failedResp playingEndS.player).error =
      some "Failed to fetch surah data: Internal Server Error" ∧
    (resolveFetchWith initReq failedResp playingEndS.player).isPlaying = false ∧
    (resolveFetchWith initReq failedResp playingEndS.player).surahData = none :=
  c10_fetch_failure_clears_state initReq failedResp
    "Failed to fetch surah data: Internal Server Error" playingEndS.player rfl

end Tarteel
